import Mathlib

/-!
Verification of the feature-flag evaluator in `src/backend/feature_flags.py`.

The evaluator works over already-parsed JSON data, so flag definitions are
modelled as dynamic Python/JSON values (`PyVal`).  Operations that can raise a
Python exception (attribute access on a non-dict, `in` on a non-container,
ordering between an int and a non-numeric value) return `Except PyErr _`.
Python's built-in string hash is modelled as an explicit parameter
`pyHash : String → Int`: within one process it is a fixed function, but its
value depends on the per-process hash-randomization seed.
-/

set_option autoImplicit false

namespace FeatureFlags

/-- A parsed JSON / Python value, as produced by `json.load`.  JSON object keys
are strings; an object is represented as an association list in which the
first occurrence of a key is its binding.  (JSON numbers are modelled as
integers; the configuration schema only uses integers.) -/
inductive PyVal where
  | none : PyVal
  | bool : Bool → PyVal
  | int : Int → PyVal
  | str : String → PyVal
  | list : List PyVal → PyVal
  | dict : List (String × PyVal) → PyVal
deriving Repr

/-- Python exceptions that the evaluator's operations can raise. -/
inductive PyErr where
  | attributeError : PyErr
  | typeError : PyErr
deriving DecidableEq, Repr

/-- Python truthiness (`bool(v)`): `None`, `False`, `0`, `""`, `[]`, `{}` are
falsy, everything else is truthy.  Total, never raises. -/
def truthy : PyVal → Bool
  | PyVal.none => false
  | PyVal.bool b => b
  | PyVal.int n => n != 0
  | PyVal.str s => !s.isEmpty
  | PyVal.list xs => !xs.isEmpty
  | PyVal.dict xs => !xs.isEmpty

/-- Truthiness of an optional-string parameter (`user_group`, `user_id`):
`None` and `""` are falsy. -/
def argTruthy : Option String → Bool
  | Option.none => false
  | Option.some s => !s.isEmpty

/-- `d.get(k, dflt)` on a Python dict represented as an association list. -/
def pyGet (d : List (String × PyVal)) (k : String) (dflt : PyVal) : PyVal :=
  match d.find? (fun kv => kv.1 == k) with
  | Option.some kv => kv.2
  | Option.none => dflt

/-- `v.get(k, dflt)` on an arbitrary value: raises `AttributeError` unless `v`
is a dict (as `feature.get(...)` / `environments.get(...)` do in the source). -/
def pyGetAttr (v : PyVal) (k : String) (dflt : PyVal) : Except PyErr PyVal :=
  match v with
  | PyVal.dict d => Except.ok (pyGet d k dflt)
  | _ => Except.error PyErr.attributeError

/-- Whether `g` occurs as a contiguous run inside `s` (Python `g in s` on
strings). -/
def strInfix (g : List Char) : List Char → Bool
  | [] => g.isEmpty
  | c :: t => g.isPrefixOf (c :: t) || strInfix g t

/-- Python `g in v` for a string `g`: list membership by `==` (a `str` equals
only an equal `str`), substring test on a `str`, key membership on a dict;
`TypeError` on non-containers. -/
def pyContainsStr (g : String) (v : PyVal) : Except PyErr Bool :=
  match v with
  | PyVal.list xs =>
    Except.ok (xs.any (fun x => match x with | PyVal.str s => s == g | _ => false))
  | PyVal.str s => Except.ok (strInfix g.data s.data)
  | PyVal.dict d => Except.ok (d.any (fun kv => kv.1 == g))
  | _ => Except.error PyErr.typeError

/-- Python `v < n` for an int `n`: defined for ints and bools (`True` = 1,
`False` = 0), `TypeError` otherwise. -/
def pyLtInt (v : PyVal) (n : Int) : Except PyErr Bool :=
  match v with
  | PyVal.int m => Except.ok (decide (m < n))
  | PyVal.bool b => Except.ok (decide ((if b then (1 : Int) else 0) < n))
  | _ => Except.error PyErr.typeError

/-- Python `m >= v` for an int `m`: defined for ints and bools, `TypeError`
otherwise. -/
def pyGeInt (m : Int) (v : PyVal) : Except PyErr Bool :=
  match v with
  | PyVal.int k => Except.ok (decide (k ≤ m))
  | PyVal.bool b => Except.ok (decide ((if b then (1 : Int) else 0) ≤ m))
  | _ => Except.error PyErr.typeError

/-- The `Environment` enum from the source. -/
inductive Environment where
  | development : Environment
  | staging : Environment
  | production : Environment
deriving DecidableEq, Repr

/-- `Environment.value`: the string payload of each enum member. -/
def Environment.value : Environment → String
  | Environment.development => "development"
  | Environment.staging => "staging"
  | Environment.production => "production"

/-- The `# Check user group access` block of `is_feature_enabled`:
```
if user_group:
    allowed_groups = feature.get('user_groups', [])
    if allowed_groups and user_group not in allowed_groups:
        return False
```
Returns `ok true` when the block does not return `False`, `ok false` when it
does, and propagates the `TypeError` of `in` on a truthy non-container. -/
def group_check (d : List (String × PyVal)) (user_group : Option String) :
    Except PyErr Bool :=
  if argTruthy user_group then
    let allowed_groups := pyGet d "user_groups" (PyVal.list [])
    if truthy allowed_groups then
      match pyContainsStr (user_group.getD "") allowed_groups with
      | Except.error e => Except.error e
      | Except.ok mem => Except.ok mem
    else Except.ok true
  else Except.ok true

/-- The `# Check rollout percentage` block of `is_feature_enabled`:
```
rollout_percentage = feature.get('rollout_percentage', 100)
if rollout_percentage < 100 and user_id:
    user_hash = abs(hash(user_id)) % 100
    if user_hash >= rollout_percentage:
        return False
return True
```
`rollout_percentage < 100` is evaluated before the truthiness of `user_id`, so
a non-numeric `rollout_percentage` raises even when `user_id` is absent. -/
def rollout_check (pyHash : String → Int) (d : List (String × PyVal))
    (user_id : Option String) : Except PyErr Bool :=
  let rollout_percentage := pyGet d "rollout_percentage" (PyVal.int 100)
  match pyLtInt rollout_percentage 100 with
  | Except.error e => Except.error e
  | Except.ok lt =>
    if lt && argTruthy user_id then
      let user_hash : Int := ((pyHash (user_id.getD "")).natAbs % 100 : Nat)
      match pyGeInt user_hash rollout_percentage with
      | Except.error e => Except.error e
      | Except.ok ge => if ge then Except.ok false else Except.ok true
    else Except.ok true

/-- The body of `is_feature_enabled` after the registry lookup, evaluating one
flag definition `feature`.  A non-dict definition raises `AttributeError` at
its first `feature.get(...)` (the `enabled` access); for a dict the four gates
run in source order: master switch, environment, group, rollout. -/
def eval_feature (pyHash : String → Int) (env : Environment) (feature : PyVal)
    (user_group : Option String) (user_id : Option String) : Except PyErr Bool :=
  match feature with
  | PyVal.dict d =>
    if !truthy (pyGet d "enabled" (PyVal.bool false)) then Except.ok false
    else
      match pyGetAttr (pyGet d "environments" (PyVal.dict []))
          env.value (PyVal.bool false) with
      | Except.error e => Except.error e
      | Except.ok envv =>
        if !truthy envv then Except.ok false
        else
          match group_check d user_group with
          | Except.error e => Except.error e
          | Except.ok pass =>
            if !pass then Except.ok false
            else rollout_check pyHash d user_id
  | _ => Except.error PyErr.attributeError

/-- `FeatureFlags.is_feature_enabled(feature_name, user_group, user_id)`.
`flags` is the instance's registry (`self.flags`), `env` the instance's
environment, `pyHash` the process's built-in string hash. -/
def is_feature_enabled (pyHash : String → Int) (env : Environment)
    (flags : List (String × PyVal)) (feature_name : String)
    (user_group : Option String) (user_id : Option String) : Except PyErr Bool :=
  match flags.find? (fun kv => kv.1 == feature_name) with
  | Option.none => Except.ok false
  | Option.some kv => eval_feature pyHash env kv.2 user_group user_id

/-- The loop of `get_enabled_features` over a list of flag names, appending
each name whose evaluation returns `True` and propagating exceptions. -/
def enabled_loop (pyHash : String → Int) (env : Environment)
    (flags : List (String × PyVal)) (user_group : Option String)
    (user_id : Option String) : List String → Except PyErr (List String)
  | [] => Except.ok []
  | n :: rest =>
    match is_feature_enabled pyHash env flags n user_group user_id with
    | Except.error e => Except.error e
    | Except.ok b =>
      match enabled_loop pyHash env flags user_group user_id rest with
      | Except.error e => Except.error e
      | Except.ok r => Except.ok (if b then n :: r else r)

/-- `FeatureFlags.get_enabled_features(user_group, user_id)`: iterates the
registry's keys in order. -/
def get_enabled_features (pyHash : String → Int) (env : Environment)
    (flags : List (String × PyVal)) (user_group : Option String)
    (user_id : Option String) : Except PyErr (List String) :=
  enabled_loop pyHash env flags user_group user_id (flags.map Prod.fst)

/-- `FeatureFlags.get_feature_config(feature_name)`: raw registry lookup. -/
def get_feature_config (flags : List (String × PyVal)) (feature_name : String) :
    Option PyVal :=
  (flags.find? (fun kv => kv.1 == feature_name)).map Prod.snd

/-- Outcome of opening and parsing the configuration file in `_load_flags`. -/
inductive LoadOutcome where
  | fileNotFound : LoadOutcome
  | decodeError : LoadOutcome
  | parsed : PyVal → LoadOutcome

/-- `FeatureFlags._load_flags`: on `FileNotFoundError` or `json.JSONDecodeError`
returns the empty dict, otherwise `config.get('features', {})` on the parsed
document (which raises `AttributeError` when the document is not an object). -/
def load_flags (outcome : LoadOutcome) : Except PyErr PyVal :=
  match outcome with
  | LoadOutcome.fileNotFound => Except.ok (PyVal.dict [])
  | LoadOutcome.decodeError => Except.ok (PyVal.dict [])
  | LoadOutcome.parsed config => pyGetAttr config "features" (PyVal.dict [])

/-! ## Helper lemmas -/

theorem pyGet_cons_self (k : String) (v : PyVal) (d : List (String × PyVal))
    (dflt : PyVal) : pyGet ((k, v) :: d) k dflt = v := by
  simp [pyGet, List.find?]

theorem pyGet_cons_ne (k k' : String) (h : (k == k') = false) (v : PyVal)
    (d : List (String × PyVal)) (dflt : PyVal) :
    pyGet ((k, v) :: d) k' dflt = pyGet d k' dflt := by
  simp [pyGet, List.find?, h]

theorem isEnabled_of_config (pyHash : String → Int) (env : Environment)
    (flags : List (String × PyVal)) (feature_name : String)
    (user_group user_id : Option String) (v : PyVal)
    (h : get_feature_config flags feature_name = Option.some v) :
    is_feature_enabled pyHash env flags feature_name user_group user_id
      = eval_feature pyHash env v user_group user_id := by
  unfold get_feature_config at h
  unfold is_feature_enabled
  cases hf : flags.find? (fun kv => kv.1 == feature_name) with
  | none => rw [hf] at h; simp at h
  | some kv =>
    rw [hf] at h
    simp at h
    subst h
    rfl

/-- The first three gates of `eval_feature` (master switch, environment,
group), separated from the rollout gate for proofs. -/
def pre_rollout (env : Environment) (d : List (String × PyVal))
    (user_group : Option String) : Except PyErr Bool :=
  if !truthy (pyGet d "enabled" (PyVal.bool false)) then Except.ok false
  else
    match pyGetAttr (pyGet d "environments" (PyVal.dict []))
        env.value (PyVal.bool false) with
    | Except.error er => Except.error er
    | Except.ok envv =>
      if !truthy envv then Except.ok false
      else
        match group_check d user_group with
        | Except.error er => Except.error er
        | Except.ok pass => if !pass then Except.ok false else Except.ok true

theorem eval_feature_dict (pyHash : String → Int) (env : Environment)
    (d : List (String × PyVal)) (user_group user_id : Option String) :
    eval_feature pyHash env (PyVal.dict d) user_group user_id =
      match pre_rollout env d user_group with
      | Except.error er => Except.error er
      | Except.ok false => Except.ok false
      | Except.ok true => rollout_check pyHash d user_id := by
  unfold eval_feature pre_rollout
  cases h1 : truthy (pyGet d "enabled" (PyVal.bool false)) with
  | false => simp [h1]
  | true =>
    cases h2 : pyGetAttr (pyGet d "environments" (PyVal.dict []))
        env.value (PyVal.bool false) with
    | error er => simp [h1, h2]
    | ok envv =>
      cases h3 : truthy envv with
      | false => simp [h1, h2, h3]
      | true =>
        cases h4 : group_check d user_group with
        | error er => simp [h1, h2, h3, h4]
        | ok pass => cases pass <;> simp [h1, h2, h3, h4]

theorem group_check_cons_rollout (v : PyVal) (d : List (String × PyVal))
    (user_group : Option String) :
    group_check (("rollout_percentage", v) :: d) user_group
      = group_check d user_group := by
  unfold group_check
  rw [pyGet_cons_ne _ _ (by decide)]

theorem pre_rollout_cons_rollout (env : Environment) (v : PyVal)
    (d : List (String × PyVal)) (user_group : Option String) :
    pre_rollout env (("rollout_percentage", v) :: d) user_group
      = pre_rollout env d user_group := by
  unfold pre_rollout
  rw [pyGet_cons_ne _ _ (by decide), pyGet_cons_ne _ _ (by decide),
    group_check_cons_rollout]

theorem rollout_check_cons (pyHash : String → Int) (v : PyVal)
    (d : List (String × PyVal)) (user_id : Option String) :
    rollout_check pyHash (("rollout_percentage", v) :: d) user_id =
      match pyLtInt v 100 with
      | Except.error e => Except.error e
      | Except.ok lt =>
        if lt && argTruthy user_id then
          match pyGeInt (((pyHash (user_id.getD "")).natAbs % 100 : Nat)) v with
          | Except.error e => Except.error e
          | Except.ok ge => if ge then Except.ok false else Except.ok true
        else Except.ok true := by
  unfold rollout_check
  rw [pyGet_cons_self]

/-- `v` is a Python dict. -/
def isDict : PyVal → Bool
  | PyVal.dict _ => true
  | _ => false

/-- `v` is a Python container (`in` works without raising): list, str or dict. -/
def isContainer : PyVal → Bool
  | PyVal.list _ => true
  | PyVal.str _ => true
  | PyVal.dict _ => true
  | _ => false

/-- `v` is usable as a number in comparisons with an int: int or bool. -/
def isIntLike : PyVal → Bool
  | PyVal.int _ => true
  | PyVal.bool _ => true
  | _ => false

/-- A flag definition on which `is_feature_enabled` cannot raise: a dict whose
`environments` entry is a dict (or absent), whose `user_groups` entry is a
container (or absent) and whose `rollout_percentage` entry is an int or bool
(or absent).  This is exactly the shape a well-formed configuration file
produces. -/
def WellTypedDef : PyVal → Bool
  | PyVal.dict d =>
    isDict (pyGet d "environments" (PyVal.dict []))
      && isContainer (pyGet d "user_groups" (PyVal.list []))
      && isIntLike (pyGet d "rollout_percentage" (PyVal.int 100))
  | _ => false

theorem pyContainsStr_total (g : String) (v : PyVal)
    (h : isContainer v = true) : ∃ b, pyContainsStr g v = Except.ok b := by
  cases v <;> simp [isContainer] at h <;> simp [pyContainsStr]

theorem group_check_total (d : List (String × PyVal)) (g : Option String)
    (h : isContainer (pyGet d "user_groups" (PyVal.list [])) = true) :
    ∃ b, group_check d g = Except.ok b := by
  unfold group_check
  cases argTruthy g with
  | false => exact ⟨true, rfl⟩
  | true =>
    simp only [if_true]
    cases htr : truthy (pyGet d "user_groups" (PyVal.list [])) with
    | false => simp [htr]
    | true =>
      obtain ⟨b, hb⟩ := pyContainsStr_total (g.getD "") _ h
      simp [htr, hb]

theorem exists_ok_ite (c1 c2 : Bool) :
    ∃ b, (if c1 then (if c2 then (Except.ok false : Except PyErr Bool)
      else Except.ok true) else Except.ok true) = Except.ok b := by
  cases c1 <;> cases c2 <;> simp

theorem rollout_check_total (pyHash : String → Int)
    (d : List (String × PyVal)) (u : Option String)
    (h : isIntLike (pyGet d "rollout_percentage" (PyVal.int 100)) = true) :
    ∃ b, rollout_check pyHash d u = Except.ok b := by
  unfold rollout_check
  cases hv : pyGet d "rollout_percentage" (PyVal.int 100) with
  | int n =>
    dsimp only [pyLtInt, pyGeInt]
    exact exists_ok_ite _ _
  | bool b =>
    dsimp only [pyLtInt, pyGeInt]
    exact exists_ok_ite _ _
  | none => simp [isIntLike, hv] at h
  | str s => simp [isIntLike, hv] at h
  | list xs => simp [isIntLike, hv] at h
  | dict xs => simp [isIntLike, hv] at h

theorem pre_rollout_total (env : Environment) (d : List (String × PyVal))
    (g : Option String)
    (henv : isDict (pyGet d "environments" (PyVal.dict [])) = true)
    (hgrp : isContainer (pyGet d "user_groups" (PyVal.list [])) = true) :
    ∃ b, pre_rollout env d g = Except.ok b := by
  unfold pre_rollout
  cases h1 : truthy (pyGet d "enabled" (PyVal.bool false)) with
  | false => simp
  | true =>
    cases hev : pyGet d "environments" (PyVal.dict []) <;>
      simp [isDict, hev] at henv
    simp only [hev, pyGetAttr]
    obtain ⟨b, hb⟩ := group_check_total d g hgrp
    cases h3 : truthy (pyGet _ env.value (PyVal.bool false)) with
    | false => simp [h3]
    | true => cases b <;> simp [h3, hb]

theorem eval_feature_total (pyHash : String → Int) (env : Environment)
    (v : PyVal) (g u : Option String) (hw : WellTypedDef v = true) :
    ∃ b, eval_feature pyHash env v g u = Except.ok b := by
  cases v with
  | dict d =>
    simp only [WellTypedDef, Bool.and_eq_true] at hw
    obtain ⟨⟨henv, hgrp⟩, hrp⟩ := hw
    rw [eval_feature_dict]
    obtain ⟨b, hb⟩ := pre_rollout_total env d g henv hgrp
    cases b with
    | false => simp [hb]
    | true =>
      obtain ⟨b2, hb2⟩ := rollout_check_total pyHash d u hrp
      exact ⟨b2, by simp [hb, hb2]⟩
  | none => simp [WellTypedDef] at hw
  | bool b => simp [WellTypedDef] at hw
  | int n => simp [WellTypedDef] at hw
  | str s => simp [WellTypedDef] at hw
  | list xs => simp [WellTypedDef] at hw

/-- Totality of `is_feature_enabled` over a registry of well-typed
definitions. -/
theorem is_feature_enabled_total (pyHash : String → Int) (env : Environment)
    (flags : List (String × PyVal)) (feature_name : String)
    (g u : Option String)
    (hw : ∀ kv ∈ flags, WellTypedDef kv.2 = true) :
    ∃ b, is_feature_enabled pyHash env flags feature_name g u = Except.ok b := by
  unfold is_feature_enabled
  cases hf : flags.find? (fun kv => kv.1 == feature_name) with
  | none => exact ⟨false, rfl⟩
  | some kv =>
    have hmem : kv ∈ flags := List.mem_of_find?_eq_some hf
    exact eval_feature_total pyHash env kv.2 g u (hw kv hmem)


/-! ## Claim theorems -/

/-- C1: the claim says the rollout decision is a pure function of the
`userId` string alone, independent of process restarts and
hash-randomization seeds.  The source computes the bucket with Python's
built-in `hash`, which is a per-process function of the hash-randomization
seed, and the decision genuinely depends on that function: with the same
registry, flag, environment and user, one process hash function yields
`True` and another yields `False`.  (Evaluation of the code at the failing
input for both hash functions.) -/
theorem rollout_decision_depends_on_process_hash :
    is_feature_enabled (fun _ => 30) Environment.production
      [("x", PyVal.dict [("enabled", PyVal.bool true),
        ("environments", PyVal.dict [("production", PyVal.bool true)]),
        ("rollout_percentage", PyVal.int 50)])]
      "x" Option.none (Option.some "user123") = Except.ok true
    ∧ is_feature_enabled (fun _ => 80) Environment.production
      [("x", PyVal.dict [("enabled", PyVal.bool true),
        ("environments", PyVal.dict [("production", PyVal.bool true)]),
        ("rollout_percentage", PyVal.int 50)])]
      "x" Option.none (Option.some "user123") = Except.ok false := by
  exact ⟨rfl, rfl⟩

/-- C6: a flag name not present in the registry evaluates to `False` (never
an error) for every group and user id, and `get_feature_config` returns
absent. -/
theorem unknown_flag_inert (pyHash : String → Int) (env : Environment)
    (flags : List (String × PyVal)) (feature_name : String)
    (g u : Option String) (h : ∀ kv ∈ flags, kv.1 ≠ feature_name) :
    is_feature_enabled pyHash env flags feature_name g u = Except.ok false
      ∧ get_feature_config flags feature_name = Option.none := by
  have hf : flags.find? (fun kv => kv.1 == feature_name) = Option.none := by
    rw [List.find?_eq_none]
    intro kv hkv
    simpa using h kv hkv
  constructor
  · unfold is_feature_enabled
    rw [hf]
  · unfold get_feature_config
    rw [hf]
    rfl

/-- Witness for C6 at a concrete input. -/
theorem unknown_flag_inert_witness :
    is_feature_enabled (fun _ => 0) Environment.development
      [("a", PyVal.dict [])] "b" Option.none Option.none = Except.ok false
      ∧ get_feature_config [("a", PyVal.dict [])] "b" = Option.none :=
  unknown_flag_inert (fun _ => 0) Environment.development
    [("a", PyVal.dict [])] "b" Option.none Option.none (by decide)

/-- C7: when the definition's `environments` entry for the current
environment is `False` or absent (`pyGetAttr` on the `environments` dict
returns the default `False`), the flag evaluates to `False` for every group
and user id, regardless of the `enabled` master switch. -/
theorem environment_gate_blocks (pyHash : String → Int) (env : Environment)
    (flags : List (String × PyVal)) (feature_name : String)
    (g u : Option String) (d : List (String × PyVal))
    (hdef : get_feature_config flags feature_name = Option.some (PyVal.dict d))
    (henv : pyGetAttr (pyGet d "environments" (PyVal.dict []))
      env.value (PyVal.bool false) = Except.ok (PyVal.bool false)) :
    is_feature_enabled pyHash env flags feature_name g u = Except.ok false := by
  rw [isEnabled_of_config pyHash env flags feature_name g u _ hdef,
    eval_feature_dict]
  have hpre : pre_rollout env d g = Except.ok false := by
    unfold pre_rollout
    cases h1 : truthy (pyGet d "enabled" (PyVal.bool false)) with
    | false => simp
    | true => simp [henv, truthy]
  rw [hpre]

/-- Witness for C7 at a concrete input: `enabled` is true but the
environments map lacks an entry for the current environment. -/
theorem environment_gate_blocks_witness :
    is_feature_enabled (fun _ => 0) Environment.staging
      [("x", PyVal.dict [("enabled", PyVal.bool true),
        ("environments", PyVal.dict [("production", PyVal.bool true)])])]
      "x" Option.none Option.none = Except.ok false :=
  environment_gate_blocks (fun _ => 0) Environment.staging
    [("x", PyVal.dict [("enabled", PyVal.bool true),
      ("environments", PyVal.dict [("production", PyVal.bool true)])])]
    "x" Option.none Option.none
    [("enabled", PyVal.bool true),
      ("environments", PyVal.dict [("production", PyVal.bool true)])]
    rfl rfl

/-- C10: empty strings are treated as absent at the public interface: an
empty `user_group` evaluates exactly as no group (skipping the allow-list
check even when `user_groups` is non-empty), and an empty `user_id`
evaluates exactly as no user id (skipping the rollout check even when
`rollout_percentage < 100`), for every registry, flag and environment. -/
theorem empty_string_args_absent (pyHash : String → Int) (env : Environment)
    (flags : List (String × PyVal)) (feature_name : String)
    (g u : Option String) :
    is_feature_enabled pyHash env flags feature_name (Option.some "") u
      = is_feature_enabled pyHash env flags feature_name Option.none u
    ∧ is_feature_enabled pyHash env flags feature_name g (Option.some "")
      = is_feature_enabled pyHash env flags feature_name g Option.none := by
  constructor <;> rfl


/-- C2: rollout monotonicity.  Fix the user id, the hash function, the
environment and everything in the flag's definition except the rollout
percentage.  If the flag evaluates to `True` with `rollout_percentage = p1`,
it also evaluates to `True` with any `rollout_percentage = p2 ≥ p1` (the hash
bucket is fixed; only the threshold changes). -/
theorem rollout_monotone (pyHash : String → Int) (env : Environment)
    (flags1 flags2 : List (String × PyVal)) (feature_name : String)
    (g u : Option String) (d : List (String × PyVal)) (p1 p2 : Int)
    (h1 : get_feature_config flags1 feature_name
      = Option.some (PyVal.dict (("rollout_percentage", PyVal.int p1) :: d)))
    (h2 : get_feature_config flags2 feature_name
      = Option.some (PyVal.dict (("rollout_percentage", PyVal.int p2) :: d)))
    (hle : p1 ≤ p2)
    (htrue : is_feature_enabled pyHash env flags1 feature_name g u
      = Except.ok true) :
    is_feature_enabled pyHash env flags2 feature_name g u = Except.ok true := by
  rw [isEnabled_of_config pyHash env flags1 feature_name g u _ h1,
    eval_feature_dict, pre_rollout_cons_rollout] at htrue
  rw [isEnabled_of_config pyHash env flags2 feature_name g u _ h2,
    eval_feature_dict, pre_rollout_cons_rollout]
  cases hpre : pre_rollout env d g with
  | error e => rw [hpre] at htrue; simp at htrue
  | ok b =>
    cases b with
    | false => rw [hpre] at htrue; simp at htrue
    | true =>
      rw [hpre] at htrue
      simp only at htrue ⊢
      rw [rollout_check_cons] at htrue ⊢
      dsimp only [pyLtInt, pyGeInt] at htrue ⊢
      cases hu : argTruthy u with
      | false => simp [hu]
      | true =>
        simp only [hu, Bool.and_true] at htrue ⊢
        by_cases hlt2 : p2 < 100
        · have hlt1 : p1 < 100 := lt_of_le_of_lt hle hlt2
          rw [if_pos (by simpa using hlt1)] at htrue
          rw [if_pos (by simpa using hlt2)]
          by_cases hge : p1 ≤ (((pyHash (u.getD "")).natAbs % 100 : Nat) : Int)
          · rw [if_pos (by simpa using hge)] at htrue
            simp at htrue
          · rw [if_neg (by simpa using hge)] at htrue
            have hge2 : ¬ p2 ≤ (((pyHash (u.getD "")).natAbs % 100 : Nat) : Int) := by
              omega
            rw [if_neg (by simpa using hge2)]
        · rw [if_neg (by simpa using hlt2)]

/-- Witness for C2 at a concrete input: hash bucket 10, thresholds 30 and 60. -/
theorem rollout_monotone_witness :
    is_feature_enabled (fun _ => 10) Environment.development
      [("x", PyVal.dict [("rollout_percentage", PyVal.int 60),
        ("enabled", PyVal.bool true),
        ("environments", PyVal.dict [("development", PyVal.bool true)])])]
      "x" Option.none (Option.some "u1") = Except.ok true :=
  rollout_monotone (fun _ => 10) Environment.development
    [("x", PyVal.dict [("rollout_percentage", PyVal.int 30),
      ("enabled", PyVal.bool true),
      ("environments", PyVal.dict [("development", PyVal.bool true)])])]
    [("x", PyVal.dict [("rollout_percentage", PyVal.int 60),
      ("enabled", PyVal.bool true),
      ("environments", PyVal.dict [("development", PyVal.bool true)])])]
    "x" Option.none (Option.some "u1")
    [("enabled", PyVal.bool true),
      ("environments", PyVal.dict [("development", PyVal.bool true)])]
    30 60 rfl rfl (by norm_num) rfl


theorem argTruthy_some_of_ne (s : String) (h : s ≠ "") :
    argTruthy (Option.some s) = true := by
  have hx : s.isEmpty = false :=
    Bool.eq_false_iff.mpr (fun hx => h ((String.isEmpty_iff s).mp hx))
  simp [argTruthy, hx]

/-- C3 counterexample: the claim says a flag with `rollout_percentage: 0`
evaluates to `False` for every concrete `userId`, but the code skips the
rollout check for falsy user ids, so the concrete `userId` `""` evaluates
to `True`. -/
theorem rollout_zero_enables_empty_userid :
    is_feature_enabled (fun _ => 0) Environment.development
      [("x", PyVal.dict [("enabled", PyVal.bool true),
        ("environments", PyVal.dict [("development", PyVal.bool true)]),
        ("rollout_percentage", PyVal.int 0)])]
      "x" Option.none (Option.some "") = Except.ok true := rfl

/-- C3 (amended): a well-typed flag definition with `rollout_percentage = 0`
evaluates to `False` for every nonempty `userId`; with
`rollout_percentage = 100` the result is independent of the `userId`, so
every user passing the prior gates — including an absent or empty user id —
gets `True`. -/
theorem rollout_zero_blocks_hundred_passes (pyHash : String → Int)
    (env : Environment) (feature_name : String) (g : Option String) :
    (∀ (flags d : List (String × PyVal)) (s : String),
      get_feature_config flags feature_name
        = Option.some (PyVal.dict (("rollout_percentage", PyVal.int 0) :: d)) →
      WellTypedDef (PyVal.dict (("rollout_percentage", PyVal.int 0) :: d)) = true →
      s ≠ "" →
      is_feature_enabled pyHash env flags feature_name g (Option.some s)
        = Except.ok false)
    ∧ (∀ (flags d : List (String × PyVal)) (u : Option String),
      get_feature_config flags feature_name
        = Option.some (PyVal.dict (("rollout_percentage", PyVal.int 100) :: d)) →
      is_feature_enabled pyHash env flags feature_name g u
        = is_feature_enabled pyHash env flags feature_name g Option.none) := by
  constructor
  · intro flags d s hdef hw hs
    rw [isEnabled_of_config pyHash env flags feature_name g (Option.some s) _ hdef,
      eval_feature_dict, pre_rollout_cons_rollout]
    simp only [WellTypedDef, Bool.and_eq_true] at hw
    obtain ⟨⟨henv, hgrp⟩, _⟩ := hw
    rw [pyGet_cons_ne _ _ (by decide)] at henv
    rw [pyGet_cons_ne _ _ (by decide)] at hgrp
    obtain ⟨b, hb⟩ := pre_rollout_total env d g henv hgrp
    rw [hb]
    cases b with
    | false => rfl
    | true =>
      simp only
      rw [rollout_check_cons]
      dsimp only [pyLtInt, pyGeInt]
      rw [if_pos (by simp [argTruthy_some_of_ne s hs])]
      rw [if_pos (decide_eq_true (Int.natCast_nonneg _))]
  · intro flags d u hdef
    rw [isEnabled_of_config pyHash env flags feature_name g u _ hdef,
      isEnabled_of_config pyHash env flags feature_name g Option.none _ hdef,
      eval_feature_dict, eval_feature_dict, pre_rollout_cons_rollout]
    cases hb : pre_rollout env d g with
    | error e => rfl
    | ok b =>
      cases b with
      | false => rfl
      | true =>
        simp only
        rw [rollout_check_cons, rollout_check_cons]
        norm_num [pyLtInt]

/-- Witness for C3 (amended) at concrete inputs. -/
theorem rollout_zero_blocks_hundred_passes_witness :
    is_feature_enabled (fun _ => 7) Environment.development
      [("x", PyVal.dict [("rollout_percentage", PyVal.int 0),
        ("enabled", PyVal.bool true),
        ("environments", PyVal.dict [("development", PyVal.bool true)])])]
      "x" Option.none (Option.some "u1") = Except.ok false
    ∧ is_feature_enabled (fun _ => 7) Environment.development
      [("x", PyVal.dict [("rollout_percentage", PyVal.int 100),
        ("enabled", PyVal.bool true),
        ("environments", PyVal.dict [("development", PyVal.bool true)])])]
      "x" Option.none (Option.some "u1")
      = is_feature_enabled (fun _ => 7) Environment.development
        [("x", PyVal.dict [("rollout_percentage", PyVal.int 100),
          ("enabled", PyVal.bool true),
          ("environments", PyVal.dict [("development", PyVal.bool true)])])]
        "x" Option.none Option.none :=
  ⟨(rollout_zero_blocks_hundred_passes (fun _ => 7) Environment.development
      "x" Option.none).1
    [("x", PyVal.dict [("rollout_percentage", PyVal.int 0),
      ("enabled", PyVal.bool true),
      ("environments", PyVal.dict [("development", PyVal.bool true)])])]
    [("enabled", PyVal.bool true),
      ("environments", PyVal.dict [("development", PyVal.bool true)])]
    "u1" rfl (by decide) (by decide),
  (rollout_zero_blocks_hundred_passes (fun _ => 7) Environment.development
      "x" Option.none).2
    [("x", PyVal.dict [("rollout_percentage", PyVal.int 100),
      ("enabled", PyVal.bool true),
      ("environments", PyVal.dict [("development", PyVal.bool true)])])]
    [("enabled", PyVal.bool true),
      ("environments", PyVal.dict [("development", PyVal.bool true)])]
    (Option.some "u1") rfl⟩


/-- C4 counterexample: the claim says evaluation returns a boolean for every
registry contents including malformed definitions, but a flag whose
definition is not an object makes `feature.get('enabled', False)` raise
`AttributeError`. -/
theorem malformed_definition_raises :
    is_feature_enabled (fun _ => 0) Environment.development
      [("x", PyVal.int 42)] "x" Option.none Option.none
      = Except.error PyErr.attributeError := rfl

/-- C4 (amended): for every flag name, group, user id and environment, and
every registry whose flag definitions are well-typed (objects whose
`environments` entry is an object, `user_groups` a container and
`rollout_percentage` an int or bool — the shape every well-formed
configuration file produces), `is_feature_enabled` terminates and returns a
boolean, raising nothing.  Missing flags, missing fields and missing
arguments all resolve to a boolean via the defaults. -/
theorem evaluation_total_on_welltyped (pyHash : String → Int)
    (env : Environment) (flags : List (String × PyVal))
    (feature_name : String) (g u : Option String)
    (hw : ∀ kv ∈ flags, WellTypedDef kv.2 = true) :
    ∃ b, is_feature_enabled pyHash env flags feature_name g u
      = Except.ok b :=
  is_feature_enabled_total pyHash env flags feature_name g u hw

/-- Witness for C4 (amended) at a concrete input. -/
theorem evaluation_total_on_welltyped_witness :
    ∃ b, is_feature_enabled (fun _ => 3) Environment.production
      [("x", PyVal.dict [("enabled", PyVal.bool true),
        ("environments", PyVal.dict [("production", PyVal.bool true)]),
        ("user_groups", PyVal.list [PyVal.str "sales"]),
        ("rollout_percentage", PyVal.int 50)])]
      "x" (Option.some "sales") (Option.some "u1") = Except.ok b :=
  evaluation_total_on_welltyped (fun _ => 3) Environment.production
    [("x", PyVal.dict [("enabled", PyVal.bool true),
      ("environments", PyVal.dict [("production", PyVal.bool true)]),
      ("user_groups", PyVal.list [PyVal.str "sales"]),
      ("rollout_percentage", PyVal.int 50)])]
    "x" (Option.some "sales") (Option.some "u1") (by decide)

theorem enabled_loop_eq_filter (pyHash : String → Int) (env : Environment)
    (flags : List (String × PyVal)) (g u : Option String)
    (hw : ∀ kv ∈ flags, WellTypedDef kv.2 = true) (L : List String) :
    enabled_loop pyHash env flags g u L
      = Except.ok (L.filter (fun n =>
          match is_feature_enabled pyHash env flags n g u with
          | Except.ok true => true
          | _ => false)) := by
  induction L with
  | nil => rfl
  | cons n rest ih =>
    obtain ⟨b, hb⟩ :=
      is_feature_enabled_total pyHash env flags n g u hw
    unfold enabled_loop
    rw [hb, ih]
    cases b <;> simp [List.filter_cons, hb]

/-- C5: over a registry of well-typed definitions (the shape a well-formed
configuration produces — otherwise the loop re-raises the first exception),
`get_enabled_features(group, userId)` returns exactly the flag names for
which `is_feature_enabled` is `True`, in the registry's iteration
(insertion) order. -/
theorem get_enabled_features_eq_filter (pyHash : String → Int)
    (env : Environment) (flags : List (String × PyVal))
    (g u : Option String)
    (hw : ∀ kv ∈ flags, WellTypedDef kv.2 = true) :
    get_enabled_features pyHash env flags g u
      = Except.ok ((flags.map Prod.fst).filter (fun n =>
          match is_feature_enabled pyHash env flags n g u with
          | Except.ok true => true
          | _ => false)) :=
  enabled_loop_eq_filter pyHash env flags g u hw (flags.map Prod.fst)

/-- Witness for C5 at a concrete input: two flags, one enabled and one
disabled, listed in registry order. -/
theorem get_enabled_features_eq_filter_witness :
    get_enabled_features (fun _ => 3) Environment.development
      [("a", PyVal.dict [("enabled", PyVal.bool true),
        ("environments", PyVal.dict [("development", PyVal.bool true)])]),
       ("b", PyVal.dict [("enabled", PyVal.bool false)])]
      Option.none Option.none
      = Except.ok ((([("a", PyVal.dict [("enabled", PyVal.bool true),
          ("environments", PyVal.dict [("development", PyVal.bool true)])]),
         ("b", PyVal.dict [("enabled", PyVal.bool false)])].map
            Prod.fst)).filter (fun n =>
          match is_feature_enabled (fun _ => 3) Environment.development
            [("a", PyVal.dict [("enabled", PyVal.bool true),
              ("environments", PyVal.dict [("development", PyVal.bool true)])]),
             ("b", PyVal.dict [("enabled", PyVal.bool false)])]
            n Option.none Option.none with
          | Except.ok true => true
          | _ => false)) :=
  get_enabled_features_eq_filter (fun _ => 3) Environment.development
    [("a", PyVal.dict [("enabled", PyVal.bool true),
      ("environments", PyVal.dict [("development", PyVal.bool true)])]),
     ("b", PyVal.dict [("enabled", PyVal.bool false)])]
    Option.none Option.none (by decide)


theorem any_str_eq_false_of_not_mem (g : String) (xs : List PyVal)
    (h : PyVal.str g ∉ xs) :
    xs.any (fun x => match x with
      | PyVal.str s => s == g
      | _ => false) = false := by
  induction xs with
  | nil => rfl
  | cons x rest ih =>
    simp only [List.any_cons, Bool.or_eq_false_iff]
    refine ⟨?_, ih (fun hm => h (List.mem_cons_of_mem _ hm))⟩
    cases x with
    | str s =>
      have hne : s ≠ g := by
        intro he
        apply h
        rw [← he]
        exact List.mem_cons_self _ _
      exact beq_eq_false_iff_ne.mpr hne
    | none => rfl
    | bool b => rfl
    | int n => rfl
    | list ys => rfl
    | dict ys => rfl

theorem list_not_isEmpty_of_ne_nil (xs : List PyVal) (h : xs ≠ []) :
    xs.isEmpty = false :=
  Bool.eq_false_iff.mpr (fun hx => h (List.isEmpty_iff.mp hx))

/-- C8: the group gate.  (1) For a flag passing the registry, master-switch
and environment gates, a provided (nonempty) group that is not a member of
the definition's non-empty `user_groups` list makes the flag evaluate to
`False`, for every user id.  (2) When `user_groups` is empty or absent (the
lookup yields the empty list), the group check is skipped: evaluation is
identical to passing no group at all, so every group passes. -/
theorem group_gate (pyHash : String → Int) (env : Environment) :
    (∀ (flags : List (String × PyVal)) (feature_name : String)
      (u : Option String) (d : List (String × PyVal)) (envv : PyVal)
      (g : String) (gs : List PyVal),
      get_feature_config flags feature_name = Option.some (PyVal.dict d) →
      truthy (pyGet d "enabled" (PyVal.bool false)) = true →
      pyGetAttr (pyGet d "environments" (PyVal.dict []))
        env.value (PyVal.bool false) = Except.ok envv →
      truthy envv = true →
      g ≠ "" →
      pyGet d "user_groups" (PyVal.list []) = PyVal.list gs →
      gs ≠ [] →
      PyVal.str g ∉ gs →
      is_feature_enabled pyHash env flags feature_name (Option.some g) u
        = Except.ok false)
    ∧ (∀ (flags : List (String × PyVal)) (feature_name : String)
      (u : Option String) (d : List (String × PyVal)) (g' : Option String),
      get_feature_config flags feature_name = Option.some (PyVal.dict d) →
      pyGet d "user_groups" (PyVal.list []) = PyVal.list [] →
      is_feature_enabled pyHash env flags feature_name g' u
        = is_feature_enabled pyHash env flags feature_name Option.none u) := by
  constructor
  · intro flags feature_name u d envv g gs hdef hen henv htr hg hug hne hmem
    rw [isEnabled_of_config pyHash env flags feature_name (Option.some g) u
      _ hdef, eval_feature_dict]
    have hgc : group_check d (Option.some g) = Except.ok false := by
      unfold group_check
      rw [if_pos (argTruthy_some_of_ne g hg)]
      simp only [hug]
      rw [if_pos (by simp [truthy, list_not_isEmpty_of_ne_nil gs hne])]
      simp only [Option.getD, pyContainsStr,
        any_str_eq_false_of_not_mem g gs hmem]
    have hpre : pre_rollout env d (Option.some g) = Except.ok false := by
      unfold pre_rollout
      rw [hen, henv]
      simp [htr, hgc]
    rw [hpre]
  · intro flags feature_name u d g' hdef hug0
    rw [isEnabled_of_config pyHash env flags feature_name g' u _ hdef,
      isEnabled_of_config pyHash env flags feature_name Option.none u _ hdef,
      eval_feature_dict, eval_feature_dict]
    have hgc : ∀ go : Option String, group_check d go = Except.ok true := by
      intro go
      unfold group_check
      by_cases hgo : argTruthy go = true
      · rw [if_pos hgo]
        simp [hug0, truthy]
      · rw [if_neg hgo]
    have : pre_rollout env d g' = pre_rollout env d Option.none := by
      unfold pre_rollout
      rw [hgc g', hgc Option.none]
    rw [this]

/-- Witness for C8 at concrete inputs: part (1) with group `basic` against
allow-list `["sales"]`, part (2) with an empty `user_groups`. -/
theorem group_gate_witness :
    is_feature_enabled (fun _ => 0) Environment.production
      [("x", PyVal.dict [("enabled", PyVal.bool true),
        ("environments", PyVal.dict [("production", PyVal.bool true)]),
        ("user_groups", PyVal.list [PyVal.str "sales"])])]
      "x" (Option.some "basic") Option.none = Except.ok false
    ∧ is_feature_enabled (fun _ => 0) Environment.production
      [("y", PyVal.dict [("enabled", PyVal.bool true),
        ("environments", PyVal.dict [("production", PyVal.bool true)]),
        ("user_groups", PyVal.list [])])]
      "y" (Option.some "anybody") Option.none
      = is_feature_enabled (fun _ => 0) Environment.production
        [("y", PyVal.dict [("enabled", PyVal.bool true),
          ("environments", PyVal.dict [("production", PyVal.bool true)]),
          ("user_groups", PyVal.list [])])]
        "y" Option.none Option.none :=
  ⟨(group_gate (fun _ => 0) Environment.production).1
    [("x", PyVal.dict [("enabled", PyVal.bool true),
      ("environments", PyVal.dict [("production", PyVal.bool true)]),
      ("user_groups", PyVal.list [PyVal.str "sales"])])]
    "x" Option.none
    [("enabled", PyVal.bool true),
      ("environments", PyVal.dict [("production", PyVal.bool true)]),
      ("user_groups", PyVal.list [PyVal.str "sales"])]
    (PyVal.bool true) "basic" [PyVal.str "sales"]
    rfl rfl rfl rfl (by decide) rfl (by simp) (by simp),
  (group_gate (fun _ => 0) Environment.production).2
    [("y", PyVal.dict [("enabled", PyVal.bool true),
      ("environments", PyVal.dict [("production", PyVal.bool true)]),
      ("user_groups", PyVal.list [])])]
    "y" Option.none
    [("enabled", PyVal.bool true),
      ("environments", PyVal.dict [("production", PyVal.bool true)]),
      ("user_groups", PyVal.list [])]
    (Option.some "anybody") rfl rfl⟩


/-- C9 counterexample: the claim says out-of-range rollout percentages are
clamped at load time so evaluation never observes them.  `_load_flags` does
no clamping: loading a document with `rollout_percentage: 150` yields a
registry that still holds 150, and `get_feature_config` exposes it. -/
theorem load_preserves_out_of_range_rollout :
    load_flags (LoadOutcome.parsed (PyVal.dict [("features", PyVal.dict
        [("x", PyVal.dict [("rollout_percentage", PyVal.int 150)])])]))
      = Except.ok (PyVal.dict [("x", PyVal.dict
        [("rollout_percentage", PyVal.int 150)])])
    ∧ get_feature_config
        [("x", PyVal.dict [("rollout_percentage", PyVal.int 150)])] "x"
      = Option.some (PyVal.dict [("rollout_percentage", PyVal.int 150)]) :=
  ⟨rfl, rfl⟩

/-- C9 (amended): the loader stores rollout percentages verbatim, but the
evaluator decides exactly as it would with the value clamped into [0,100]:
two registries whose definitions for a flag differ only in replacing the
rollout percentage `p` by `max 0 (min p 100)` produce identical evaluation
results for every group, user and environment. -/
theorem rollout_clamp_equivalent (pyHash : String → Int) (env : Environment)
    (flags1 flags2 : List (String × PyVal)) (feature_name : String)
    (g u : Option String) (d : List (String × PyVal)) (p : Int)
    (h1 : get_feature_config flags1 feature_name
      = Option.some (PyVal.dict (("rollout_percentage", PyVal.int p) :: d)))
    (h2 : get_feature_config flags2 feature_name
      = Option.some (PyVal.dict (("rollout_percentage",
          PyVal.int (max 0 (min p 100))) :: d))) :
    is_feature_enabled pyHash env flags1 feature_name g u
      = is_feature_enabled pyHash env flags2 feature_name g u := by
  rw [isEnabled_of_config pyHash env flags1 feature_name g u _ h1,
    isEnabled_of_config pyHash env flags2 feature_name g u _ h2,
    eval_feature_dict, eval_feature_dict, pre_rollout_cons_rollout,
    pre_rollout_cons_rollout]
  cases hpre : pre_rollout env d g with
  | error e => rfl
  | ok b =>
    cases b with
    | false => rfl
    | true =>
      simp only
      rw [rollout_check_cons, rollout_check_cons]
      dsimp only [pyLtInt, pyGeInt]
      cases hu : argTruthy u with
      | false => simp [hu]
      | true =>
        simp only [hu, Bool.and_true]
        by_cases hp : p < 100
        · have hq : max 0 (min p 100) < 100 := by omega
          rw [if_pos (decide_eq_true hp), if_pos (decide_eq_true hq)]
          by_cases hle : p ≤ (((pyHash (u.getD "")).natAbs % 100 : Nat) : Int)
          · have hle2 : max 0 (min p 100)
                ≤ (((pyHash (u.getD "")).natAbs % 100 : Nat) : Int) := by
              have := Int.natCast_nonneg ((pyHash (u.getD "")).natAbs % 100)
              omega
            rw [if_pos (decide_eq_true hle), if_pos (decide_eq_true hle2)]
          · have hle2 : ¬ max 0 (min p 100)
                ≤ (((pyHash (u.getD "")).natAbs % 100 : Nat) : Int) := by
              omega
            rw [if_neg (by simpa using hle), if_neg (by simpa using hle2)]
        · have hq : ¬ max 0 (min p 100) < 100 := by omega
          rw [if_neg (by simpa using hp), if_neg (by simpa using hq)]

/-- Witness for C9 (amended) at a concrete input: 150 behaves as 100. -/
theorem rollout_clamp_equivalent_witness :
    is_feature_enabled (fun _ => 42) Environment.development
      [("x", PyVal.dict [("rollout_percentage", PyVal.int 150),
        ("enabled", PyVal.bool true),
        ("environments", PyVal.dict [("development", PyVal.bool true)])])]
      "x" Option.none (Option.some "u1")
      = is_feature_enabled (fun _ => 42) Environment.development
        [("x", PyVal.dict [("rollout_percentage", PyVal.int (max 0 (min 150 100))),
          ("enabled", PyVal.bool true),
          ("environments", PyVal.dict [("development", PyVal.bool true)])])]
        "x" Option.none (Option.some "u1") :=
  rollout_clamp_equivalent (fun _ => 42) Environment.development
    [("x", PyVal.dict [("rollout_percentage", PyVal.int 150),
      ("enabled", PyVal.bool true),
      ("environments", PyVal.dict [("development", PyVal.bool true)])])]
    [("x", PyVal.dict [("rollout_percentage", PyVal.int (max 0 (min 150 100))),
      ("enabled", PyVal.bool true),
      ("environments", PyVal.dict [("development", PyVal.bool true)])])]
    "x" Option.none (Option.some "u1")
    [("enabled", PyVal.bool true),
      ("environments", PyVal.dict [("development", PyVal.bool true)])]
    150 rfl rfl


/-- C5 counterexample: the claim quantifies over every registry, but on a
registry with a malformed definition `get_enabled_features` re-raises the
evaluation exception instead of returning the filtered sequence (which the
claim would require to be the empty list, as no flag evaluates to true). -/
theorem get_enabled_features_raises_on_malformed :
    get_enabled_features (fun _ => 0) Environment.development
      [("x", PyVal.int 42)] Option.none Option.none
      = Except.error PyErr.attributeError := rfl

end FeatureFlags
